import Mathlib

/-!
# Verification of the WebGL water simulation core

A shallow embedding of the GPU water-simulation pipeline of the repository
(heightfield wave simulation on ping-ponged float textures, sphere displacement
stamping, normal recomputation, caustics generation with separable blur, and
the per-frame driver), together with theorems settling the specification
claims about it.

Modelling conventions:
* GLSL `float` values are modelled as real numbers (`ℝ`); `sqrt`, `cos`, `exp`
  are `Real.sqrt`, `Real.cos`, `Real.exp`.
* A GLSL operation that would produce a non-finite value (division by zero in
  `project`, hence Inf/NaN) is modelled as `Option`-valued: `none` stands for
  a non-finite result propagating downstream.
* The simulation textures are `SIZE × SIZE` grids of RGBA texels
  (`Fin simSize → Fin simSize → Vec4`).  The simulation shaders sample at
  `v_uv ± u_delta` with `u_delta = 1/SIZE`, i.e. exactly one texel over;
  render targets use clamp-to-edge addressing, so sampling is modelled at the
  index level with clamped indices.
* The ping-pong render-target pair is modelled as two named buffers plus a
  flag designating which buffer is currently `read`.
-/

/-- An RGBA texel of the simulation texture.  Channel semantics (from the
source): `r` = wave height, `g` = vertical velocity, `b`/`a` = packed
horizontal normal components. -/
@[ext]
structure Vec4 where
  r : ℝ
  g : ℝ
  b : ℝ
  a : ℝ

/-- A 3-component GLSL vector. -/
@[ext]
structure Vec3 where
  x : ℝ
  y : ℝ
  z : ℝ

namespace Vec3

/-- GLSL `dot` for `vec3`. -/
def dot (u v : Vec3) : ℝ := u.x * v.x + u.y * v.y + u.z * v.z

/-- GLSL `cross` for `vec3`. -/
def cross (u v : Vec3) : Vec3 :=
  ⟨u.y * v.z - u.z * v.y, u.z * v.x - u.x * v.z, u.x * v.y - u.y * v.x⟩

/-- Component negation, GLSL unary minus. -/
def neg (v : Vec3) : Vec3 := ⟨-v.x, -v.y, -v.z⟩

/-- GLSL `length` for `vec3`. -/
noncomputable def len (v : Vec3) : ℝ := Real.sqrt (v.x ^ 2 + v.y ^ 2 + v.z ^ 2)

/-- GLSL `normalize` for `vec3` (`v / length v`). -/
noncomputable def normalize (v : Vec3) : Vec3 :=
  ⟨v.x / v.len, v.y / v.len, v.z / v.len⟩

end Vec3

/-- GLSL `length` of a 2-component vector. -/
noncomputable def len2 (v : ℝ × ℝ) : ℝ := Real.sqrt (v.1 ^ 2 + v.2 ^ 2)

/-- Simulation grid resolution: `const SIZE = 128` in `WebGLWater`. -/
def simSize : ℕ := 128

/-- The content of one simulation texture. -/
def Grid : Type := Fin simSize → Fin simSize → Vec4

/-- Clamp an integer index into the valid texel range, modelling the render
target's clamp-to-edge sampling at the grid border. -/
def clampIdx (k : ℤ) : Fin simSize :=
  ⟨(min 127 (max 0 k)).toNat, by simp only [simSize]; omega⟩

/-- Sample a grid at a (possibly out-of-range) integer texel coordinate, with
clamp-to-edge addressing. -/
def sampleClamped (g : Grid) (i j : ℤ) : Vec4 := g (clampIdx i) (clampIdx j)

/-- The UV coordinate of the center of texel `(i, j)`. -/
noncomputable def texelUV (i j : Fin simSize) : ℝ × ℝ :=
  ((i.val + 1 / 2) / simSize, (j.val + 1 / 2) / simSize)

/-! ## The four simulation fragment shaders, as texel transformations -/

/-- `dropShaderFs`: additive raised-cosine height perturbation around
`u_center` with radius `u_radius` and strength `u_strength`. -/
noncomputable def dropField (center : ℝ × ℝ) (radius strength : ℝ)
    (g : Grid) : Grid := fun i j =>
  let info := g i j
  let uv := texelUV i j
  let drop0 := max 0 (1 - len2 (center.1 - uv.1, center.2 - uv.2) / radius)
  let drop := 0.5 - Real.cos (drop0 * Real.pi) * 0.5
  ⟨info.r + drop * strength, info.g, info.b, info.a⟩

/-- `updateShaderFs`: the wave-propagation step.  `u_delta = 1/SIZE`, so the
four samples at `v_uv ± u_delta` are the four clamped axis neighbours. -/
noncomputable def updateField (g : Grid) : Grid := fun i j =>
  let info := g i j
  let average :=
    (sampleClamped g ((i : ℤ) - 1) (j : ℤ)).r +
      (sampleClamped g ((i : ℤ) + 1) (j : ℤ)).r +
      (sampleClamped g (i : ℤ) ((j : ℤ) - 1)).r +
      (sampleClamped g (i : ℤ) ((j : ℤ) + 1)).r
  let average := average * 0.25
  let g1 := info.g + (average - info.r) * 2.0
  let g2 := g1 * 0.995
  ⟨info.r + g2, g2, info.b, info.a⟩

/-- `normalShaderFs`: recompute the packed normal from forward differences of
the height.  `delta` is the shader's `u_delta` uniform (set to `1/SIZE`), and
the samples at `v_uv + (delta.x, 0)` and `v_uv + (0, delta.y)` are the clamped
forward neighbours. -/
noncomputable def normalField (delta : ℝ × ℝ) (g : Grid) : Grid := fun i j =>
  let info := g i j
  let hx := (sampleClamped g ((i : ℤ) + 1) (j : ℤ)).r
  let hy := (sampleClamped g (i : ℤ) ((j : ℤ) + 1)).r
  let dx : Vec3 := ⟨delta.1, hx - info.r, 0⟩
  let dy : Vec3 := ⟨0, hy - info.r, delta.2⟩
  let n := (Vec3.cross dy dx).normalize
  ⟨info.r, info.g, n.x, n.z⟩

/-- `volumeInSphere` from `sphereShaderFs`: the approximate displaced-volume
contribution of a sphere centred at `center` with radius `u_radius`, at the
texel whose world position is `(uv.x*2-1, 0, uv.y*2-1)`. -/
noncomputable def volumeInSphere (center : Vec3) (radius : ℝ)
    (uv : ℝ × ℝ) : ℝ :=
  let worldX := uv.1 * 2.0 - 1.0
  let worldZ := uv.2 * 2.0 - 1.0
  let t := len2 (worldX - center.x, worldZ - center.z) / radius
  let dy := Real.exp (-(t * 1.5) ^ (6 : ℕ))
  let ymin := min 0 (center.y - dy)
  let ymax := min (max 0 (center.y + dy)) (ymin + 2.0 * dy)
  (ymax - ymin) * 0.1

/-- `sphereShaderFs`: add the old-centre volume term and subtract the
new-centre volume term from the height channel. -/
noncomputable def sphereStampField (oldCenter newCenter : Vec3) (radius : ℝ)
    (g : Grid) : Grid := fun i j =>
  let info := g i j
  ⟨info.r + volumeInSphere oldCenter radius (texelUV i j)
      - volumeInSphere newCenter radius (texelUV i j),
    info.g, info.b, info.a⟩

/-! ## The ping-ponged render-target pair and the simulator operations -/

/-- The `targets` object of `waterSimulation`: two render targets and a flag
recording which of the two is currently the `read` target (`true` = buffer A).
`swap` exchanges the roles. -/
structure SimState where
  bufA : Grid
  bufB : Grid
  readIsA : Bool

/-- The content of the current `read` target of a state. -/
def readContent (st : SimState) : Grid :=
  if st.readIsA then st.bufA else st.bufB

/-- The content of the current `write` target of a state. -/
def writeContent (st : SimState) : Grid :=
  if st.readIsA then st.bufB else st.bufA

/-- The shared pattern of all four simulator operations: bind `u_texture` to
the `read` target's texture, render the full-screen quad into the `write`
target (its content is fully overwritten with `f` applied to the read
content), then `targets.swap()`. -/
def runPass (f : Grid → Grid) (st : SimState) : SimState :=
  if st.readIsA then ⟨st.bufA, f st.bufA, false⟩
  else ⟨f st.bufB, st.bufB, true⟩

/-- `waterSimulation.addDrop`. -/
noncomputable def addDropOp (center : ℝ × ℝ) (radius strength : ℝ) :
    SimState → SimState :=
  runPass (dropField center radius strength)

/-- `waterSimulation.step` (wave propagation). -/
noncomputable def stepOp : SimState → SimState :=
  runPass updateField

/-- `waterSimulation.updateNormals`.  The normal material's `u_delta` is
`(1/SIZE, 1/SIZE)`. -/
noncomputable def updateNormalsOp : SimState → SimState :=
  runPass (normalField (1 / (simSize : ℝ), 1 / (simSize : ℝ)))

/-- `waterSimulation.moveSphere`. -/
noncomputable def moveSphereOp (oldCenter newCenter : Vec3) (radius : ℝ) :
    SimState → SimState :=
  runPass (sphereStampField oldCenter newCenter radius)

/-- `waterSimulation.getTexture`: returns the current `read` target's
texture; a pure query. -/
def getTexture (st : SimState) : Grid := readContent st

/-- After any pass, the new `read` content is the shader applied to the old
`read` content. -/
theorem getTexture_runPass (f : Grid → Grid) (st : SimState) :
    getTexture (runPass f st) = f (getTexture st) := by
  cases st with
  | mk a b r => cases r <;> simp [getTexture, readContent, runPass]

/-- After any pass, the new `write` target is the old `read` buffer, whose
content is untouched. -/
theorem writeContent_runPass (f : Grid → Grid) (st : SimState) :
    writeContent (runPass f st) = readContent st := by
  cases st with
  | mk a b r => cases r <;> simp [writeContent, readContent, runPass]

/-- Every pass toggles the read/write roles exactly once. -/
theorem readIsA_runPass (f : Grid → Grid) (st : SimState) :
    (runPass f st).readIsA = !st.readIsA := by
  cases st with
  | mk a b r => cases r <;> simp [runPass]

/-! ## The per-frame driver (`animate` in `WebGLWater`) -/

/-- A label for each sub-pass the frame driver submits. -/
inductive Pass where
  | injectDrop
  | sphereStamp
  | propagateStep
  | normalsPass
  | causticsPass
  | reflectionPass
  | compositePass
deriving DecidableEq

/-- One frame of `animate`, transcribed in submission order: the two wind
`addDrop` calls, the conditional `moveSphere` (only when the sphere has moved
more than `0.001` since the last frame), `step`, `updateNormals`, then the
caustics update, the reflection render and the final composite render (the
last three do not touch the simulation state; they are recorded in the trace
only).  `wind1`/`wind2` are the time-dependent wind drop centres, and
`oldCenter`/`newCenter`/`radius` the sphere-stamp arguments of this frame.
The function returns the simulation state after the frame together with the
ordered list of submitted passes. -/
noncomputable def animateFrame (sphereMoved : Bool) (wind1 wind2 : ℝ × ℝ)
    (windStrength : ℝ) (oldCenter newCenter : Vec3) (radius : ℝ)
    (st : SimState) : SimState × List Pass :=
  let st := addDropOp wind1 0.05 windStrength st
  let st := addDropOp wind2 0.08 (-windStrength * 0.7) st
  let stamped : SimState × List Pass :=
    if sphereMoved then (moveSphereOp oldCenter newCenter radius st,
      [Pass.sphereStamp])
    else (st, [])
  let st := stepOp stamped.1
  let st := updateNormalsOp st
  (st, Pass.injectDrop :: Pass.injectDrop :: stamped.2 ++
    [Pass.propagateStep, Pass.normalsPass, Pass.causticsPass,
      Pass.reflectionPass, Pass.compositePass])

/-- The pass trace of one frame, as a function of whether the sphere moved
beyond the epsilon this frame. -/
def frameTrace (sphereMoved : Bool) : List Pass :=
  Pass.injectDrop :: Pass.injectDrop ::
    (if sphereMoved then [Pass.sphereStamp] else []) ++
    [Pass.propagateStep, Pass.normalsPass, Pass.causticsPass,
      Pass.reflectionPass, Pass.compositePass]

/-- Modelled from the spec: the per-frame pass order the spec asserts
("inject disturbances → propagate → recompute normals → stamp sphere motion →
regenerate caustics → render reflection → render final composite"), for
comparison with the order transcribed from the code. -/
def specFrameOrder : List Pass :=
  [Pass.injectDrop, Pass.propagateStep, Pass.normalsPass, Pass.sphereStamp,
    Pass.causticsPass, Pass.reflectionPass, Pass.compositePass]

/-- The per-frame pass order actually found in the code: the sphere stamp is
submitted after the disturbance injections and before the propagation step. -/
def codeFrameOrder : List Pass :=
  [Pass.injectDrop, Pass.sphereStamp, Pass.propagateStep, Pass.normalsPass,
    Pass.causticsPass, Pass.reflectionPass, Pass.compositePass]

/-- The trace emitted by `animateFrame` is `frameTrace`, independently of the
frame's numeric inputs and of the starting state. -/
theorem animateFrame_trace (sphereMoved : Bool) (wind1 wind2 : ℝ × ℝ)
    (windStrength : ℝ) (oldCenter newCenter : Vec3) (radius : ℝ)
    (st : SimState) :
    (animateFrame sphereMoved wind1 wind2 windStrength oldCenter newCenter
      radius st).2 = frameTrace sphereMoved := by
  cases sphereMoved <;> simp [animateFrame, frameTrace]

/-! ## The caustics generator (`CausticsGenerator.tsx`) -/

/-- GLSL `refract(I, N, eta)`: returns the zero vector on total internal
reflection. -/
noncomputable def glslRefract (I N : Vec3) (eta : ℝ) : Vec3 :=
  let d := Vec3.dot N I
  let k := 1.0 - eta * eta * (1.0 - d * d)
  if k < 0 then ⟨0, 0, 0⟩
  else
    ⟨eta * I.x - (eta * d + Real.sqrt k) * N.x,
      eta * I.y - (eta * d + Real.sqrt k) * N.y,
      eta * I.z - (eta * d + Real.sqrt k) * N.z⟩

/-- `project` from `causticsVertexShader`: intersect the ray with the plane
`y = -u_poolHeight` by dividing by `ray.y`.  A zero `ray.y` makes the GLSL
division produce a non-finite value; this is modelled as `none`. -/
noncomputable def projectToFloor (origin ray : Vec3) (poolHeight : ℝ) :
    Option Vec3 :=
  if ray.y = 0 then none
  else
    let t := (-origin.y - poolHeight) / ray.y
    some ⟨origin.x + ray.x * t, origin.y + ray.y * t, origin.z + ray.z * t⟩

/-- The wave-surface normal reconstructed in `causticsVertexShader` from the
packed `ba` channels: `normalize(vec3(info.b, sqrt(1 - dot(info.ba, info.ba)),
info.a))`. -/
noncomputable def reconstructNormal (info : Vec4) : Vec3 :=
  Vec3.normalize ⟨info.b, Real.sqrt (1.0 - (info.b * info.b + info.a * info.a)),
    info.a⟩

/-- Pair two optional values; `none` when either is missing (a non-finite
component makes the whole varying pair non-finite). -/
def pairOpt {α β : Type} : Option α → Option β → Option (α × β)
  | some a, some b => some (a, b)
  | _, _ => none

/-- The per-vertex computation of `causticsVertexShader`: the floor positions
`v_oldPos` (flat surface, flat-normal refraction) and `v_newPos` (displaced
surface, wave-normal refraction).  `u_poolHeight = 1.0`.  The result is
`none` when either projection degenerates to a non-finite value. -/
noncomputable def causticsVertex (info : Vec4) (lightDir : Vec3)
    (position : ℝ × ℝ) : Option (Vec3 × Vec3) :=
  let normal := reconstructNormal info
  let refractedLight := glslRefract (Vec3.neg lightDir) ⟨0, 1, 0⟩ (1.0 / 1.333)
  let refractedRay := glslRefract (Vec3.neg lightDir) normal (1.0 / 1.333)
  let origin : Vec3 := ⟨position.1, 0, -position.2⟩
  pairOpt (projectToFloor origin refractedLight 1.0)
    (projectToFloor ⟨origin.x, origin.y + info.r, origin.z⟩ refractedRay 1.0)

/-- The per-fragment computation of `causticsFragmentShader`, as a function of
the screen-space derivative vectors of `v_oldPos` and `v_newPos`: the
projected-area ratio `oldArea / newArea * 0.2`.  A zero `newArea` makes the
GLSL division produce a non-finite value, modelled as `none`; there is no
clamp and no NaN guard in the shader. -/
noncomputable def causticsFragment (dOldX dOldY dNewX dNewY : Vec3) :
    Option ℝ :=
  let oldArea := dOldX.len * dOldY.len
  let newArea := dNewX.len * dNewY.len
  if newArea = 0 then none else some (oldArea / newArea * 0.2)

/-! ## The separable blur of the caustics texture -/

/-- A single-channel texture in UV space (the red channel the blur shader
reads and writes). -/
def Tex : Type := ℝ × ℝ → ℝ

/-- `blurFragmentShader`, unrolled: the centre tap weighted `weights[0]` plus,
for `i = 1..4`, the taps at `v_uv ± float(i) * u_delta` weighted
`weights[i]`. -/
noncomputable def blurAt (tex : Tex) (delta uv : ℝ × ℝ) : ℝ :=
  tex uv * 0.227027
    + tex (uv.1 + 1 * delta.1, uv.2 + 1 * delta.2) * 0.1945946
    + tex (uv.1 - 1 * delta.1, uv.2 - 1 * delta.2) * 0.1945946
    + tex (uv.1 + 2 * delta.1, uv.2 + 2 * delta.2) * 0.1216216
    + tex (uv.1 - 2 * delta.1, uv.2 - 2 * delta.2) * 0.1216216
    + tex (uv.1 + 3 * delta.1, uv.2 + 3 * delta.2) * 0.054054
    + tex (uv.1 - 3 * delta.1, uv.2 - 3 * delta.2) * 0.054054
    + tex (uv.1 + 4 * delta.1, uv.2 + 4 * delta.2) * 0.016216
    + tex (uv.1 - 4 * delta.1, uv.2 - 4 * delta.2) * 0.016216

/-- One blur pass as a texture transformation. -/
noncomputable def blurPass (delta : ℝ × ℝ) (tex : Tex) : Tex := fun uv => blurAt tex delta uv

/-- The effective convolution kernel of one blur pass, as (texel offset,
weight) pairs: the centre tap plus four taps on each side, reusing the five
weights of the shader's `weights` array symmetrically. -/
def blurKernel : List (ℤ × ℚ) :=
  [(0, 0.227027), (1, 0.1945946), (-1, 0.1945946), (2, 0.1216216),
    (-2, 0.1216216), (3, 0.054054), (-3, 0.054054), (4, 0.016216),
    (-4, 0.016216)]

/-- `CAUSTICS_SIZE = 512`: both render targets of the generator. -/
def causticsSize : ℕ := 512

/-- The smoothing performed by `CausticsGenerator.update` after the raw
caustics render: a horizontal blur pass (`u_delta = (1/width, 0)`) followed by
a vertical blur pass (`u_delta = (0, 1/height)`). -/
noncomputable def causticsSmooth (raw : Tex) : Tex :=
  blurPass (0, 1 / (causticsSize : ℝ)) (blurPass (1 / (causticsSize : ℝ), 0) raw)

/-! ## The `WebGLWater` component's reactive prop effects -/

/-- The sky preset enumeration (`skyPresets` keys). -/
inductive SkyPreset where
  | presetDefault
  | sunset
  | cloudy
  | night
deriving DecidableEq

/-- The props of `WebGLWater` that drive the reactive effects.  Colour props
are modelled as RGB triples. -/
structure WaterProps where
  lightPosition : ℚ × ℚ × ℚ
  skyPreset : SkyPreset
  lightIntensity : ℚ
  specularIntensity : ℚ
  useCustomWaterColor : Bool
  waterColorShallow : ℚ × ℚ × ℚ
  waterColorDeep : ℚ × ℚ × ℚ
deriving DecidableEq

/-- One dependency slot of a `useEffect` dependency array. -/
inductive DepKey where
  | lightPositionDep
  | skyPresetDep
  | lightIntensityDep
  | specularDep
  | useCustomColorDep
  | shallowColorDep
  | deepColorDep
deriving DecidableEq

/-- Whether the prop value behind a dependency slot differs between two
renders (React re-runs an effect when some entry of its dependency array
changed). -/
def depChanged (p q : WaterProps) : DepKey → Bool
  | .lightPositionDep => decide (p.lightPosition ≠ q.lightPosition)
  | .skyPresetDep => decide (p.skyPreset ≠ q.skyPreset)
  | .lightIntensityDep => decide (p.lightIntensity ≠ q.lightIntensity)
  | .specularDep => decide (p.specularIntensity ≠ q.specularIntensity)
  | .useCustomColorDep => decide (p.useCustomWaterColor ≠ q.useCustomWaterColor)
  | .shallowColorDep => decide (p.waterColorShallow ≠ q.waterColorShallow)
  | .deepColorDep => decide (p.waterColorDeep ≠ q.waterColorDeep)

/-- One prop-driven `useEffect` of `WebGLWater`: its dependency array and
whether its body regenerates the environment cubemap (calls
`cubeCamera.update`). -/
structure EffectSpec where
  deps : List DepKey
  regeneratesCubemap : Bool

/-- The five prop-driven effects of `WebGLWater`, in source order: the
`lightPosition` effect (sets the sun direction uniforms), the
`lightIntensity` effect, the `specularIntensity` effect, the water-colour
effect, and the sky-preset effect — the only one whose body calls
`cubeCamera.update`, with dependency array `[skyPreset, lightIntensity]`. -/
def webglWaterEffects : List EffectSpec :=
  [⟨[.lightPositionDep], false⟩,
    ⟨[.lightIntensityDep], false⟩,
    ⟨[.specularDep], false⟩,
    ⟨[.useCustomColorDep, .shallowColorDep, .deepColorDep], false⟩,
    ⟨[.skyPresetDep, .lightIntensityDep], true⟩]

/-- Whether a prop update from `p` to `q` regenerates the environment
cubemap: some effect whose body calls `cubeCamera.update` has a changed
dependency. -/
def cubemapRegenerated (p q : WaterProps) : Bool :=
  webglWaterEffects.any fun e => e.regeneratesCubemap && e.deps.any (depChanged p q)

/-! ## The sphere drag clamp (`onPointerMoveImpl`) -/

/-- `poolSize` in the interaction code. -/
def poolSizeC : ℚ := 2

/-- `poolHeight` in the interaction code. -/
def poolHeightC : ℚ := 1

/-- `sphereRadius` in the interaction code. -/
def sphereRadiusC : ℚ := 0.25

/-- The clamp applied to the sphere position after every pointer-move drag
update: `x` and `z` are clamped to `±(poolSize/2 - sphereRadius)` and `y` to
`[-poolHeight + sphereRadius, 0.5]`.  The input is the drag-plane
intersection point `(x, y, z)`. -/
def clampDraggedSphere (p : ℚ × ℚ × ℚ) : ℚ × ℚ × ℚ :=
  let limit := poolSizeC / 2 - sphereRadiusC
  (max (-limit) (min limit p.1),
    max (-poolHeightC + sphereRadiusC) (min 0.5 p.2.1),
    max (-limit) (min limit p.2.2))

/-! ## Shared concrete objects for witnesses -/

/-- The all-zero simulation texture. -/
def zeroGrid : Grid := fun _ _ => ⟨0, 0, 0, 0⟩

/-- A simulator state holding the all-zero texture in both targets, with
buffer A currently readable. -/
def zeroState : SimState := ⟨zeroGrid, zeroGrid, true⟩

/-- The texel index `0`. -/
def idx0 : Fin simSize := ⟨0, by simp only [simSize]; omega⟩

/-- `pairOpt` is `none` whenever its second component is. -/
theorem pairOpt_none_right {α β : Type} (o : Option α) :
    pairOpt o (none : Option β) = none := by
  cases o <;> rfl

/-! ## Claim theorems -/

/-- C3: the propagate step (`updateShaderFs` via `waterSimulation.step`)
computes, at every cell of every grid state, the new velocity as
`(velocity + (average of the four axis-neighbour heights - own height) * 2.0)
* 0.995` and the new height as `height + velocity'`, leaving the packed
normal channels untouched. -/
theorem propagate_update_rule (st : SimState) (i j : Fin simSize) :
    getTexture (stepOp st) i j =
      ⟨(getTexture st i j).r +
          ((getTexture st i j).g +
            (((sampleClamped (getTexture st) ((i : ℤ) - 1) (j : ℤ)).r +
              (sampleClamped (getTexture st) ((i : ℤ) + 1) (j : ℤ)).r +
              (sampleClamped (getTexture st) (i : ℤ) ((j : ℤ) - 1)).r +
              (sampleClamped (getTexture st) (i : ℤ) ((j : ℤ) + 1)).r) / 4 -
              (getTexture st i j).r) * 2.0) * 0.995,
        ((getTexture st i j).g +
            (((sampleClamped (getTexture st) ((i : ℤ) - 1) (j : ℤ)).r +
              (sampleClamped (getTexture st) ((i : ℤ) + 1) (j : ℤ)).r +
              (sampleClamped (getTexture st) (i : ℤ) ((j : ℤ) - 1)).r +
              (sampleClamped (getTexture st) (i : ℤ) ((j : ℤ) + 1)).r) / 4 -
              (getTexture st i j).r) * 2.0) * 0.995,
        (getTexture st i j).b,
        (getTexture st i j).a⟩ := by
  rw [stepOp, getTexture_runPass]
  show updateField (getTexture st) i j = _
  simp only [updateField, Vec4.mk.injEq]
  and_intros <;> first | trivial | ring

/-- C4: stamping the sphere motion from `A` to `B` and then immediately from
`B` to `A` (with the same radius) returns the height channel of every cell to
its pre-stamp value, exactly: each pass adds the old-centre volume term and
subtracts the new-centre volume term, and the terms cancel. -/
theorem sphere_stamp_conservation (st : SimState) (A B : Vec3) (radius : ℝ)
    (i j : Fin simSize) :
    (getTexture (moveSphereOp B A radius (moveSphereOp A B radius st)) i j).r =
      (getTexture st i j).r := by
  rw [moveSphereOp, moveSphereOp, getTexture_runPass, getTexture_runPass]
  show (sphereStampField B A radius
      (sphereStampField A B radius (getTexture st)) i j).r = _
  simp only [sphereStampField]
  ring

/-- C6: each of the four simulator operations reads from the current `read`
target only and writes into the `write` target only (the written content is
the pass shader applied to the read content, and the read buffer's content is
left intact as the next `write` target), the two targets are always distinct,
the read/write roles are swapped exactly once per operation, and `getTexture`
returns the `read` target's content without touching the state. -/
theorem ping_pong_read_write_invariant (center : ℝ × ℝ)
    (radius strength : ℝ) (oldC newC : Vec3) (srad : ℝ) (st : SimState) :
    ((addDropOp center radius strength st).readIsA = !st.readIsA ∧
      getTexture (addDropOp center radius strength st) =
        dropField center radius strength (getTexture st) ∧
      writeContent (addDropOp center radius strength st) = getTexture st) ∧
    ((stepOp st).readIsA = !st.readIsA ∧
      getTexture (stepOp st) = updateField (getTexture st) ∧
      writeContent (stepOp st) = getTexture st) ∧
    ((updateNormalsOp st).readIsA = !st.readIsA ∧
      getTexture (updateNormalsOp st) =
        normalField (1 / (simSize : ℝ), 1 / (simSize : ℝ)) (getTexture st) ∧
      writeContent (updateNormalsOp st) = getTexture st) ∧
    ((moveSphereOp oldC newC srad st).readIsA = !st.readIsA ∧
      getTexture (moveSphereOp oldC newC srad st) =
        sphereStampField oldC newC srad (getTexture st) ∧
      writeContent (moveSphereOp oldC newC srad st) = getTexture st) ∧
    (!st.readIsA) ≠ st.readIsA ∧
    getTexture st = readContent st := by
  refine ⟨⟨readIsA_runPass _ st, getTexture_runPass _ st, ?_⟩,
    ⟨readIsA_runPass _ st, getTexture_runPass _ st, ?_⟩,
    ⟨readIsA_runPass _ st, getTexture_runPass _ st, ?_⟩,
    ⟨readIsA_runPass _ st, getTexture_runPass _ st, ?_⟩,
    by cases st.readIsA <;> simp, rfl⟩ <;>
    exact writeContent_runPass _ st

/-- C10: after every pointer-move drag update, the clamped sphere position
satisfies `|x| ≤ poolSize/2 - sphereRadius`, `|z| ≤ poolSize/2 - sphereRadius`
and `-poolHeight + sphereRadius ≤ y ≤ 0.5`, wherever the pointer ray meets
the drag plane. -/
theorem drag_clamp_bounds (p : ℚ × ℚ × ℚ) :
    |(clampDraggedSphere p).1| ≤ poolSizeC / 2 - sphereRadiusC ∧
    |(clampDraggedSphere p).2.2| ≤ poolSizeC / 2 - sphereRadiusC ∧
    -poolHeightC + sphereRadiusC ≤ (clampDraggedSphere p).2.1 ∧
    (clampDraggedSphere p).2.1 ≤ 0.5 := by
  obtain ⟨x, y, z⟩ := p
  simp only [clampDraggedSphere, poolSizeC, poolHeightC, sphereRadiusC, abs_le]
  refine ⟨⟨le_max_left _ _, ?_⟩, ⟨le_max_left _ _, ?_⟩, le_max_left _ _, ?_⟩ <;>
    exact max_le (by norm_num) (min_le_left _ _)

/-- C1 counterexample: in a frame where the sphere has moved, the passes
actually performed, in order of first submission, do not follow the order
asserted by the spec (inject → propagate → normals → sphere-stamp → caustics
→ reflection → composite): the code submits the sphere stamp before the
propagation step. -/
theorem frame_pass_order_claim_false :
    ¬ (frameTrace true).dedup.Sublist specFrameOrder := by decide

/-- C1 (amended): every frame of the driver loop submits its passes in the
fixed order inject → sphere-stamp (only in frames where the sphere moved
beyond the epsilon) → propagate → normals → caustics → reflection →
composite. -/
theorem frame_pass_order (sphereMoved : Bool) (wind1 wind2 : ℝ × ℝ)
    (windStrength : ℝ) (oldCenter newCenter : Vec3) (radius : ℝ)
    (st : SimState) :
    (animateFrame sphereMoved wind1 wind2 windStrength oldCenter newCenter
        radius st).2 = frameTrace sphereMoved ∧
    (frameTrace sphereMoved).dedup.Sublist codeFrameOrder ∧
    (frameTrace true).dedup = codeFrameOrder := by
  refine ⟨animateFrame_trace _ _ _ _ _ _ _ _, ?_, by decide⟩
  cases sphereMoved <;> decide

/-- Convolution of a texture with a kernel of (texel offset, weight) pairs
along direction `delta`. -/
noncomputable def convolve (kernel : List (ℤ × ℚ)) (delta : ℝ × ℝ)
    (tex : Tex) : Tex := fun uv =>
  (kernel.map fun t =>
    (t.2 : ℝ) * tex (uv.1 + (t.1 : ℝ) * delta.1,
      uv.2 + (t.1 : ℝ) * delta.2)).sum

/-- C8 counterexample: the effective convolution kernel of one blur pass has
nine taps (the centre plus four on each side), not five. -/
theorem blur_kernel_tap_count :
    blurKernel.length = 9 ∧ blurKernel.length ≠ 5 := by decide

/-- C8 (amended): the caustics smoothing is two one-dimensional separable
blur passes, horizontal (`u_delta = (1/512, 0)`) first and vertical
(`u_delta = (0, 1/512)`) second, each convolving with the fixed symmetric
nine-tap kernel `blurKernel` built from the shader's five Gaussian
weights. -/
theorem caustics_blur_structure (raw : Tex) (delta uv : ℝ × ℝ) :
    causticsSmooth raw uv =
      blurPass (0, 1 / (causticsSize : ℝ))
        (blurPass (1 / (causticsSize : ℝ), 0) raw) uv ∧
    blurAt raw delta uv = convolve blurKernel delta raw uv ∧
    blurKernel.length = 9 ∧
    blurKernel.map Prod.snd =
      [0.227027, 0.1945946, 0.1945946, 0.1216216, 0.1216216, 0.054054,
        0.054054, 0.016216, 0.016216] ∧
    ([0.227027, 0.1945946, 0.1216216, 0.054054, 0.016216] : List ℚ).Pairwise
      (fun c d => c ≠ d) ∧
    blurKernel.map Prod.fst = [0, 1, -1, 2, -2, 3, -3, 4, -4] := by
  refine ⟨rfl, ?_, by decide, rfl, by norm_num [List.pairwise_cons], by decide⟩
  simp only [blurAt, convolve, blurKernel, List.map_cons, List.map_nil,
    List.sum_cons, List.sum_nil]
  push_cast
  simp only [zero_mul, add_zero, Prod.mk.eta]
  ring_nf

/-- A concrete prop assignment for `WebGLWater`. -/
def propsBase : WaterProps :=
  ⟨(0, 1, 0), SkyPreset.presetDefault, 1, 2, false, (1, 1, 1), (0, 0, 1)⟩

/-- The same props with only the sun direction (`lightPosition`) changed. -/
def propsSunMoved : WaterProps :=
  ⟨(1, 1, 0), SkyPreset.presetDefault, 1, 2, false, (1, 1, 1), (0, 0, 1)⟩

/-- C9 counterexample: a render where only the sun direction changed does not
regenerate the environment cubemap — no effect whose body calls
`cubeCamera.update` lists `lightPosition` among its dependencies. -/
theorem cubemap_stale_on_sun_move :
    propsBase.lightPosition ≠ propsSunMoved.lightPosition ∧
    cubemapRegenerated propsBase propsSunMoved = false := by decide

/-- C9 (amended): the environment cubemap is regenerated exactly when the sky
preset or the light intensity changed, the dependency array of the single
effect that calls `cubeCamera.update`; a change of sun direction alone never
triggers it. -/
theorem cubemap_regeneration_condition (p q : WaterProps) :
    cubemapRegenerated p q =
      (decide (p.skyPreset ≠ q.skyPreset) ||
        decide (p.lightIntensity ≠ q.lightIntensity)) := by
  simp [cubemapRegenerated, webglWaterEffects, depChanged]

/-- C5: injecting a disturbance with positive radius leaves every texel whose
UV distance from the centre is at least the radius completely unchanged, in
all four channels. -/
theorem drop_locality (center : ℝ × ℝ) (radius strength : ℝ) (st : SimState)
    (i j : Fin simSize) (hrad : 0 < radius)
    (hdist : radius ≤
      len2 (center.1 - (texelUV i j).1, center.2 - (texelUV i j).2)) :
    getTexture (addDropOp center radius strength st) i j =
      getTexture st i j := by
  rw [addDropOp, getTexture_runPass]
  show dropField center radius strength (getTexture st) i j = _
  simp only [dropField]
  have h0 : 1 - len2 (center.1 - (texelUV i j).1,
      center.2 - (texelUV i j).2) / radius ≤ 0 := by
    have h1 := (one_le_div hrad).mpr hdist
    linarith
  rw [max_eq_left h0, zero_mul, Real.cos_zero]
  norm_num

/-- C5 witness: a concrete disturbance (radius `1/2`, centre one unit away
from texel `(0,0)`) leaves that texel of the all-zero state unchanged. -/
theorem drop_locality_witness :
    (0 : ℝ) < 1 / 2 ∧
    (1 / 2 : ℝ) ≤ len2 ((1 / 256 - 1 : ℝ) - (texelUV idx0 idx0).1,
      (1 / 256 : ℝ) - (texelUV idx0 idx0).2) ∧
    getTexture (addDropOp (1 / 256 - 1, 1 / 256) (1 / 2) 1 zeroState) idx0
        idx0 = getTexture zeroState idx0 idx0 := by
  have hd : (1 / 2 : ℝ) ≤ len2 ((1 / 256 - 1 : ℝ) - (texelUV idx0 idx0).1,
      (1 / 256 : ℝ) - (texelUV idx0 idx0).2) := by
    have hv : ((1 / 256 - 1 : ℝ) - (texelUV idx0 idx0).1,
        (1 / 256 : ℝ) - (texelUV idx0 idx0).2) = (-1, 0) := by
      simp only [texelUV, idx0, simSize]
      norm_num
    rw [hv]
    simp only [len2]
    norm_num
  exact ⟨by norm_num, hd,
    drop_locality (1 / 256 - 1, 1 / 256) (1 / 2) 1 zeroState idx0 idx0
      (by norm_num) hd⟩

/-- C7: on a state whose height channel is zero everywhere, recomputing the
normals yields the straight-up normal at every texel: both packed horizontal
components (the `b` and `a` channels) are zero. -/
theorem flat_field_normals (st : SimState)
    (hflat : ∀ i j, (getTexture st i j).r = 0) (i j : Fin simSize) :
    (getTexture (updateNormalsOp st) i j).b = 0 ∧
    (getTexture (updateNormalsOp st) i j).a = 0 := by
  rw [updateNormalsOp, getTexture_runPass]
  show (normalField _ (getTexture st) i j).b = 0 ∧
    (normalField _ (getTexture st) i j).a = 0
  simp only [normalField, Vec3.cross, Vec3.normalize, Vec3.len, sampleClamped,
    hflat]
  norm_num

/-- C7 witness: on the all-zero state, the hypothesis holds and the packed
normal components at texel `(0,0)` are both zero after `updateNormals`. -/
theorem flat_field_normals_witness :
    (∀ i j, (getTexture zeroState i j).r = 0) ∧
    ((getTexture (updateNormalsOp zeroState) idx0 idx0).b = 0 ∧
      (getTexture (updateNormalsOp zeroState) idx0 idx0).a = 0) :=
  ⟨fun _ _ => rfl, flat_field_normals zeroState (fun _ _ => rfl) idx0 idx0⟩

/-- C2 (the code evaluated at a degenerate input): with the sun on the
horizon (`u_lightDir = (1,0,0)`) and a water texel whose packed normal is
fully tilted (`info.ba = (1,0)`), the refracted ray computed by
`causticsVertexShader` is horizontal, so `project` divides by `ray.y = 0` and
the vertex emits a non-finite floor position; and a fragment whose displaced
projected area (`newArea`) is zero divides by zero in the intensity ratio.
Neither stage clamps nor maps NaN to zero, contrary to the claim. -/
theorem caustics_degenerate_not_guarded :
    causticsVertex ⟨0, 0, 1, 0⟩ ⟨1, 0, 0⟩ (0, 0) = none ∧
    causticsFragment ⟨0, 0, 0⟩ ⟨0, 0, 0⟩ ⟨0, 0, 0⟩ ⟨0, 0, 0⟩ = none := by
  constructor
  · have hnorm : reconstructNormal ⟨0, 0, 1, 0⟩ = ⟨1, 0, 0⟩ := by
      simp only [reconstructNormal, Vec3.normalize, Vec3.len]
      norm_num
    have hray : glslRefract (Vec3.neg ⟨1, 0, 0⟩) ⟨1, 0, 0⟩ (1.0 / 1.333) =
        ⟨-1, 0, 0⟩ := by
      simp only [glslRefract, Vec3.neg, Vec3.dot]
      norm_num
    simp only [causticsVertex, hnorm, hray]
    refine Eq.trans (congrArg (pairOpt _) ?_) (pairOpt_none_right _)
    simp [projectToFloor]
  · simp [causticsFragment, Vec3.len]
